import Mathlib

/-!
# Voice-Diary pipeline: shallow embedding and verification

This file embeds the run-state core of the Voice-Diary repository in Lean 4 and
proves (or refutes) the specification claims about it.

Embedded source:
* `src/scheduler.py` — `run_pipeline`, `update_pipeline_state`, `validate_config`,
  `calculate_interval_seconds`, `main`;
* `src/create_journal_of_the_day/check_ongoing_entries.py` —
  `find_oldest_ongoing_entries_file`;
* `src/create_journal_of_the_day/process_ongoing_entries.py` —
  `run_check_ongoing_entries`, `run_summarize_ongoing_entries`, `main`.

Modelling conventions:
* the JSON state file `pipeline_state.json` is a record with optional fields
  (`none` = key absent from the JSON object);
* each subprocess invocation is summarised by the data the caller inspects
  (return code, stderr text, parsed-JSON stdout), collected in a `RunEnv`;
* file-system effects are reduced to the values the code branches on
  (existence/content of `transcription.txt`, the list of glob matches);
* Python numbers in `config.json` are modelled as exact rationals; Python's
  `int()` truncation toward zero is `pyInt` below.
-/

namespace VoiceDiary

/-- The nested `processing_stats` record of `pipeline_state.json`
(`scheduler.py` lines 126-132). -/
structure ProcessingStats where
  total_processed : Nat
  successful_processed : Nat
  failed_processed : Nat
  last_processed_time : Option String
deriving DecidableEq, Repr

/-- The initial `processing_stats` value installed when the key is absent
(`scheduler.py` lines 126-132). -/
def initStats : ProcessingStats :=
  { total_processed := 0
    successful_processed := 0
    failed_processed := 0
    last_processed_time := none }

/-- The persisted pipeline state record (`pipeline_state.json`).  A field is
`none` when the corresponding key is absent from the JSON object. -/
structure PipelineState where
  last_run_time : Option String
  last_run_status : Option String
  last_failed_step : Option String
  last_error : Option String
  error_traceback : Option String
  total_runs : Option Nat
  successful_runs : Option Nat
  processing_stats : Option ProcessingStats
deriving DecidableEq, Repr

/-- The state loaded when `pipeline_state.json` does not exist yet
(`scheduler.py` lines 120-123 leave `pipeline_state = {}`). -/
def emptyState : PipelineState :=
  { last_run_time := none
    last_run_status := none
    last_failed_step := none
    last_error := none
    error_traceback := none
    total_runs := none
    successful_runs := none
    processing_stats := none }

/-- The JSON object printed on stdout by `process_ongoing_entries.py` as the
scheduler reads it back (`scheduler.py` lines 222-232): `status`, `message`
and the optional `output_file` obtained via `result.get('output_file')`. -/
structure OngoingResult where
  status : String
  message : String
  output_file : Option String
deriving DecidableEq, Repr

/-- One run's external observations, as inspected by `run_pipeline`
(`scheduler.py` lines 110-254): return codes and stderr of the four
subprocesses, existence/content of `transcription.txt`, the parsed JSON
stdout of the ongoing-entries step (`none` models a `json.JSONDecodeError`),
the result of `send_demo_email`, and the `datetime.now().isoformat()`
timestamp. -/
structure RunEnv where
  gdriveRet : Int
  gdriveStderr : String
  whisperRet : Int
  whisperStderr : String
  transcriptionFile : Option String
  processRet : Int
  processStderr : String
  ongoingRet : Int
  ongoingStderr : String
  ongoingJson : Option OngoingResult
  emailSuccess : Bool
  emailMessage : String
  now : String
deriving DecidableEq, Repr

/-- Steps 2-5 of `run_pipeline` (`scheduler.py` lines 159-254): transcription,
transcription-file check, transcription processing, ongoing-entries step and
email step.  Returns the `success` flag together with the state as mutated by
those steps; `stats0` is the `processing_stats` value after the
initialise-if-absent block.  Counters `total_runs`/`successful_runs` are not
touched here (they are updated afterwards, lines 256-263). -/
def run_stages2to5 (env : RunEnv) (s1 : PipelineState) (stats0 : ProcessingStats) :
    Bool × PipelineState :=
  if env.whisperRet ≠ 0 then
    -- lines 164-169
    (false, { s1 with last_failed_step := some "transcription"
                      last_error := some env.whisperStderr
                      last_run_status := some "failed" })
  else if env.transcriptionFile.isNone then
    -- lines 173-180: only existence of transcription.txt is checked
    (false, { s1 with last_failed_step := some "transcription_file_missing"
                      last_error := some "Transcription file not found"
                      last_run_status := some "failed" })
  else
    -- lines 182-189: stage 3 is attempted, stats updated unconditionally
    let stats1 := { stats0 with total_processed := stats0.total_processed + 1
                                last_processed_time := some env.now }
    if env.processRet ≠ 0 then
      -- lines 191-197
      (false, { s1 with last_failed_step := some "transcription_processing"
                        last_error := some env.processStderr
                        last_run_status := some "failed"
                        processing_stats :=
                          some { stats1 with
                                   failed_processed := stats1.failed_processed + 1 } })
    else
      -- lines 198-202
      let s3 := { s1 with last_run_status := some "success"
                          processing_stats :=
                            some { stats1 with
                                     successful_processed :=
                                       stats1.successful_processed + 1 } }
      if env.ongoingRet ≠ 0 then
        -- lines 215-220: any non-zero exit of process_ongoing_entries.py
        -- flips the run to failed
        (false, { s3 with last_failed_step := some "ongoing_entries_processing"
                          last_error := some env.ongoingStderr
                          last_run_status := some "failed" })
      else
        match env.ongoingJson with
        | none => (true, s3)          -- lines 253-254: JSONDecodeError, warning only
        | some r =>
          if r.status = "no_file" then (true, s3)       -- lines 224-225
          else if r.status ≠ "success" then (true, s3)  -- lines 226-227, warning only
          else
            match r.output_file with
            | some p =>
              if p ≠ "" then
                -- lines 232-249: email step; only `success` is downgraded
                if env.emailSuccess then (true, s3) else (false, s3)
              else (true, s3)        -- falsy output_file: warning, line 251
            | none => (true, s3)     -- absent output_file: warning, line 251

/-- `run_pipeline` of `scheduler.py` (lines 110-267), on its non-exceptional
paths: returns the boolean result together with the state written to
`pipeline_state.json` by the run.  `s0` is the state loaded at line 123. -/
def run_pipeline (env : RunEnv) (s0 : PipelineState) : Bool × PipelineState :=
  -- lines 126-132: initialise processing_stats if absent
  let stats0 := s0.processing_stats.getD initStats
  let s1 := { s0 with processing_stats := some stats0 }
  if env.gdriveRet ≠ 0 then
    -- lines 144-152: state is saved and the function returns immediately,
    -- before the counter update at lines 256-263
    (false, { s1 with last_failed_step := some "gdrive_download"
                      last_error := some env.gdriveStderr
                      last_run_status := some "failed" })
  else
    let r := run_stages2to5 env s1 stats0
    -- lines 256-263
    (r.1, { r.2 with
              last_run_time := some env.now
              total_runs := some (r.2.total_runs.getD 0 + 1)
              successful_runs :=
                if r.1 then some (r.2.successful_runs.getD 0 + 1)
                else r.2.successful_runs })

/-- The state written by the top-level exception handler of `run_pipeline`
(`scheduler.py` lines 269-279): a fresh dictionary that replaces the loaded
state, so every other key — the counters included — is dropped. -/
def run_pipeline_exception (now err tb : String) : PipelineState :=
  { emptyState with last_run_time := some now
                    last_run_status := some "error"
                    last_error := some err
                    error_traceback := some tb }

/-- One saved-state transition of the scheduler: either a non-exceptional
`run_pipeline` run against some environment, or a run ending in the top-level
exception handler. -/
inductive RunStep : PipelineState → PipelineState → Prop
  | normal (env : RunEnv) (s : PipelineState) : RunStep s (run_pipeline env s).2
  | exceptional (now err tb : String) (s : PipelineState) :
      RunStep s (run_pipeline_exception now err tb)

/-- States of `pipeline_state.json` reachable from the initial absent-file
state by a sequence of pipeline runs. -/
def Reachable (s : PipelineState) : Prop :=
  Relation.ReflTransGen RunStep emptyState s

/-! ## Oldest-entry finder (`check_ongoing_entries.py`) -/

/-- A calendar date parsed from a filename by
`datetime.strptime(date_str, "%Y-%m-%d")`. -/
structure EntryDate where
  year : Nat
  month : Nat
  day : Nat
deriving DecidableEq, Repr

/-- Gregorian leap-year rule, as implemented by Python's `datetime`. -/
def isLeapYear (y : Nat) : Bool :=
  (y % 4 = 0 && y % 100 ≠ 0) || y % 400 = 0

/-- Days in a month, as validated by `datetime.strptime`. -/
def daysInMonth (y m : Nat) : Nat :=
  if m = 2 then (if isLeapYear y then 29 else 28)
  else if m = 4 || m = 6 || m = 9 || m = 11 then 30
  else 31

/-- Validity of a `%Y-%m-%d` date for `datetime.strptime`: `datetime.MINYEAR`
is 1, months are 1-12, days are 1 to the month's length (a four-digit year is
at most 9999 = `datetime.MAXYEAR` already). -/
def validDate (y m d : Nat) : Bool :=
  1 ≤ y && 1 ≤ m && m ≤ 12 && 1 ≤ d && d ≤ daysInMonth y m

/-- Numeric value of a digit string, most significant first. -/
def digitsToNat (l : List Char) : Nat :=
  l.foldl (fun n c => n * 10 + (c.toNat - 48)) 0

/-- Attempt to match the regex `(\d{4}-\d{2}-\d{2})_ongoing_entries.*\.txt$`
of `check_ongoing_entries.py` (line 135) at the head of the character list:
four digits, a dash, two digits, a dash, two digits, the literal
`_ongoing_entries`, anything, and `.txt` at the very end.  Returns the year,
month and day of the captured group. -/
def matchDateAt : List Char → Option (Nat × Nat × Nat)
  | y1 :: y2 :: y3 :: y4 :: h1 :: m1 :: m2 :: h2 :: d1 :: d2 :: rest =>
    if y1.isDigit && y2.isDigit && y3.isDigit && y4.isDigit && h1 = '-' &&
       m1.isDigit && m2.isDigit && h2 = '-' && d1.isDigit && d2.isDigit &&
       "_ongoing_entries".toList.isPrefixOf rest &&
       ".txt".toList.isSuffixOf (rest.drop 16) then
      some (digitsToNat [y1, y2, y3, y4], digitsToNat [m1, m2],
            digitsToNat [d1, d2])
    else none
  | _ => none

/-- `re.search`: try the pattern at each start position, left to right. -/
def searchDate : List Char → Option (Nat × Nat × Nat)
  | [] => none
  | c :: cs =>
    match matchDateAt (c :: cs) with
    | some r => some r
    | none => searchDate cs

/-- The date extracted from one filename by `check_ongoing_entries.py`
(lines 138-151): `date_pattern.search` followed by `strptime` validation;
`none` when the pattern does not match or the date string is not a real
calendar date (the `ValueError` branch, which only logs a warning). -/
def parseDate (filename : String) : Option EntryDate :=
  match searchDate filename.data with
  | some (y, m, d) => if validDate y m d then some ⟨y, m, d⟩ else none
  | none => none

/-- Chronological strict order on dates, as `datetime` objects compare. -/
def dateLt (a b : EntryDate) : Bool :=
  a.year < b.year ||
    (a.year = b.year &&
      (a.month < b.month || (a.month = b.month && a.day < b.day)))

/-- The `file_dates` dictionary (lines 137-151) in insertion order: each glob
match paired with its parsed date, files without a parseable date skipped. -/
def file_dates (files : List String) : List (String × EntryDate) :=
  files.filterMap (fun f => (parseDate f).map (fun d => (f, d)))

/-- `min(file_dates.items(), key=lambda x: x[1])` (line 155): the first item
in iteration order whose date is minimal.  `none` on an empty dictionary. -/
def minByDate : List (String × EntryDate) → Option (String × EntryDate)
  | [] => none
  | x :: xs =>
    some (xs.foldl (fun acc y => if dateLt y.2 acc.2 then y else acc) x)

/-- Outcome of `find_oldest_ongoing_entries_file`, as encoded in the JSON
`status` field it prints and the value it returns. -/
inductive FindResult
  | no_files
  | single_file
  | success (path : String)
  | no_valid_files
deriving DecidableEq, Repr

/-- `find_oldest_ongoing_entries_file` of `check_ongoing_entries.py`
(lines 57-185), as a function of the glob matches (in enumeration order):
empty list → `no_files` (lines 105-119); exactly one match → `single_file`
(lines 121-132, the minimum-population guard, applied before any date
parsing); otherwise the file with the minimal parsed date when one exists
(lines 153-170), else `no_valid_files` (lines 171-185). -/
def find_oldest_ongoing_entries_file (files : List String) : FindResult :=
  if files.isEmpty then .no_files
  else if files.length = 1 then .single_file
  else
    match minByDate (file_dates files) with
    | some x => .success x.1
    | none => .no_valid_files

/-- The JSON `status` string printed for each outcome. -/
def findStatus : FindResult → String
  | .no_files => "no_files"
  | .single_file => "single_file"
  | .success _ => "success"
  | .no_valid_files => "no_valid_files"

/-- The value returned by `find_oldest_ongoing_entries_file`: the selected
path, or `None`. -/
def findReturn : FindResult → Option String
  | .success p => some p
  | _ => none

/-- Exit code of `check_ongoing_entries.py` run as a script:
`sys.exit(0 if result else 1)`. -/
def checkExitCode (r : FindResult) : Nat :=
  if (findReturn r).isSome then 0 else 1

/-! ## Processing chain (`process_ongoing_entries.py`, JSON format) -/

/-- `run_check_ongoing_entries` (lines 102-159) with `--format json`: the
check subprocess is run with `check=True`, so a non-zero exit raises
`CalledProcessError` and yields `None`; on exit 0 the printed JSON is parsed
and the file path is returned only for status `success`. -/
def run_check_ongoing_entries (files : List String) : Option String :=
  let r := find_oldest_ongoing_entries_file files
  if checkExitCode r ≠ 0 then none
  else if findStatus r = "success" then findReturn r
  else none

/-- What the summarization subprocess (`summarize_ongoing_entries.py`)
produced, as inspected by `run_summarize_ongoing_entries`: its exit code and
its parsed JSON stdout (`none` models unparsable output). -/
structure SummarizeOutcome where
  exitCode : Int
  json : Option OngoingResult
deriving DecidableEq, Repr

/-- `run_summarize_ongoing_entries` (lines 161-199) with `--format json`:
`(False, None)` on a non-zero exit (`CalledProcessError`), on unparsable
stdout, or on a non-`success` status; otherwise
`(True, result.get("output_file"))`. -/
def run_summarize_ongoing_entries (summ : SummarizeOutcome) :
    Bool × Option String :=
  if summ.exitCode ≠ 0 then (false, none)
  else
    match summ.json with
    | none => (false, none)
    | some r =>
      if r.status = "success" then (true, r.output_file) else (false, none)

/-- `main` of `process_ongoing_entries.py` (lines 201-249) with
`--format json`: its exit code paired with the JSON object it prints
(status/message/output_file as the scheduler later reads them).  Exit codes:
0 success, 1 no file found, 2 summarization failed. -/
def process_ongoing_main (files : List String) (summ : SummarizeOutcome) :
    Nat × OngoingResult :=
  match run_check_ongoing_entries files with
  | none => (1, ⟨"no_file", "No valid ongoing entries file found", none⟩)
  | some _ =>
    let r := run_summarize_ongoing_entries summ
    if !r.1 then (2, ⟨"error", "Failed to process ongoing entries file", none⟩)
    else (0, ⟨"success", "Successfully completed processing chain", r.2⟩)

/-- The run environment as produced by an actual ongoing-entries subprocess
invocation: the return code and stdout of step 4 in `run_pipeline` are those
of `process_ongoing_entries.py` run against the given glob matches and
summarizer outcome. -/
def envWithOngoing (base : RunEnv) (files : List String)
    (summ : SummarizeOutcome) : RunEnv :=
  let r := process_ongoing_main files summ
  { base with ongoingRet := (r.1 : Int), ongoingJson := some r.2 }

/-! ## Scheduler configuration (`scheduler.py` lines 54-87 and 291-318) -/

/-- A JSON scalar as found under `config["scheduler"]["runs_per_day"]`.
Python numbers (`int`/`float`) are modelled as exact rationals. -/
inductive JsonVal
  | num (q : ℚ)
  | str (s : String)
  | null
deriving DecidableEq, Repr

/-- The `scheduler` section of `config.json`; `runs_per_day = none` models an
absent key. -/
structure SchedulerSection where
  runs_per_day : Option JsonVal
deriving DecidableEq, Repr

/-- `config.json` as far as the scheduler inspects it; `scheduler = none`
models an absent section. -/
structure Config where
  scheduler : Option SchedulerSection
deriving DecidableEq, Repr

/-- `validate_config` of `scheduler.py` (lines 54-68).  Note: this function
is defined in the source but never invoked by `main`. -/
def validate_config (c : Config) : Except String Unit :=
  match c.scheduler with
  | none => .error "Missing required section: scheduler"
  | some sec =>
    match sec.runs_per_day with
    | none => .error "Missing required parameter in scheduler section: runs_per_day"
    | some (.num _) => .ok ()
    | some _ => .error "runs_per_day must be a number"

/-- Python `int()` on a real value: truncation toward zero. -/
def pyInt (q : ℚ) : ℤ :=
  if 0 ≤ q then ⌊q⌋ else ⌈q⌉

/-- `calculate_interval_seconds` of `scheduler.py` (lines 70-87):
`config.get("scheduler", {}).get("runs_per_day", 1)` defaults an absent
section or key to the number 1; a zero value returns 0; otherwise
`int(86400 / runs_per_day)`.  A non-numeric value fails the division with a
`TypeError` (the `== 0` comparison before it is `False` for non-numbers),
modelled as `Except.error`. -/
def calculate_interval_seconds (c : Config) : Except String ℤ :=
  let rpd := match c.scheduler with
    | none => JsonVal.num 1
    | some sec => sec.runs_per_day.getD (JsonVal.num 1)
  match rpd with
  | .num q => if q = 0 then .ok 0 else .ok (pyInt (86400 / q))
  | _ => .error "unsupported operand type(s) for /"

/-- How far `main` of `scheduler.py` (lines 291-346) gets before the first
pipeline run, as a function of the loaded configuration. -/
inductive MainOutcome
  | configExit                  -- load_config called sys.exit(1)
  | errorBeforeRun (msg : String)  -- exception before any run (outer handler)
  | runOnce                     -- interval 0: run the pipeline once and exit
  | runLoop (interval : ℤ)      -- loop: run the pipeline every `interval` s
deriving DecidableEq, Repr

/-- The control flow of `main` (lines 291-346) up to the first pipeline run:
`load_config` exits when the `scheduler` section is missing (lines 41-43);
`calculate_interval_seconds` is called next — `validate_config` is never
called — and an exception there reaches the outer handler before any run;
interval 0 runs the pipeline once, any other interval enters the run loop.
`cfg = none` models a missing or unparsable `config.json`. -/
def main_flow (cfg : Option Config) : MainOutcome :=
  match cfg with
  | none => .configExit
  | some c =>
    if c.scheduler.isNone then .configExit
    else
      match calculate_interval_seconds c with
      | .error e => .errorBeforeRun e
      | .ok i => if i = 0 then .runOnce else .runLoop i

/-! ## Concrete instances used to settle the claims -/

/-- An environment in which every stage succeeds: all subprocesses exit 0,
`transcription.txt` exists with content, the ongoing-entries JSON reports
success with an output file, and the email is sent. -/
def happyEnv : RunEnv :=
  { gdriveRet := 0, gdriveStderr := "", whisperRet := 0, whisperStderr := ""
    transcriptionFile := some "transcript text", processRet := 0
    processStderr := "", ongoingRet := 0, ongoingStderr := ""
    ongoingJson := some ⟨"success", "ok", some "out.txt"⟩
    emailSuccess := true, emailMessage := "", now := "2025-01-01T00:00:00" }

/-- A loaded state with non-trivial counters: 5 runs, 3 successful. -/
def stateC1 : PipelineState :=
  { emptyState with total_runs := some 5, successful_runs := some 3 }

/-- An environment whose download subprocess exits 1. -/
def envC1 : RunEnv :=
  { happyEnv with gdriveRet := 1, gdriveStderr := "boom" }

/-- An environment in which transcription succeeds and `transcription.txt`
exists but is empty. -/
def envC6 : RunEnv :=
  { happyEnv with transcriptionFile := some "" }

/-- An environment in which stages 1-4 succeed, the summary output file is
reported, and the email send fails. -/
def envC9 : RunEnv :=
  { happyEnv with emailSuccess := false }

/-- The saved state after one fully successful run from the initial state. -/
def happyState1 : PipelineState := (run_pipeline happyEnv emptyState).2

/-- The state written by a run that ends in the top-level exception
handler. -/
def exceptionState : PipelineState :=
  run_pipeline_exception "2025-01-02T00:00:00" "boom" "Traceback"

/-- Two dated accumulator files, oldest first. -/
def files2 : List String :=
  ["2024-01-01_ongoing_entries.txt", "2024-01-02_ongoing_entries.txt"]

/-- A summarizer invocation that fails (non-zero exit). -/
def summFail : SummarizeOutcome := ⟨1, none⟩

/-- A summarizer invocation that succeeds and reports its output file. -/
def summOk : SummarizeOutcome := ⟨0, some ⟨"success", "ok", some "out.txt"⟩⟩

/-- Scenario A of the spec: three dated accumulator files. -/
def filesA : List String :=
  ["2024-01-01_ongoing_entries.txt", "2024-01-03_ongoing_entries.txt",
   "2024-01-02_ongoing_entries_2.txt"]

/-- Two glob matches of which only the first carries a parseable date. -/
def filesOneDated : List String :=
  ["2025-04-01_ongoing_entries.txt", "garbage_ongoing_entries.txt"]

/-- A configuration whose `scheduler` section exists but has no
`runs_per_day` key. -/
def cfgC5 : Config := ⟨some ⟨none⟩⟩

/-- A configuration with the given numeric `runs_per_day`. -/
def numConfig (q : ℚ) : Config := ⟨some ⟨some (.num q)⟩⟩

/-! ## Helper lemmas -/

lemma dateLt_irrefl (a : EntryDate) : dateLt a a = false := by
  simp [dateLt]

lemma not_dateLt_trans {a b c : EntryDate} (h1 : dateLt a b = false)
    (h2 : dateLt b c = false) : dateLt a c = false := by
  simp only [dateLt, Bool.or_eq_false_iff, Bool.and_eq_false_iff,
    decide_eq_false_iff_not, not_lt, decide_eq_true_eq] at h1 h2 ⊢
  omega

lemma dateLt_asymm {a b : EntryDate} (h : dateLt a b = true) :
    dateLt b a = false := by
  simp only [dateLt, Bool.or_eq_true, Bool.and_eq_true, decide_eq_true_eq,
    Bool.or_eq_false_iff, Bool.and_eq_false_iff, decide_eq_false_iff_not,
    not_lt] at h ⊢
  omega

/-- The running-minimum fold of `minByDate`: the result is the seed or a list
element, is no later than the seed, and is no later than any list element. -/
lemma foldl_minBy_spec (xs : List (String × EntryDate)) (a : String × EntryDate) :
    (xs.foldl (fun acc y => if dateLt y.2 acc.2 then y else acc) a = a ∨
      xs.foldl (fun acc y => if dateLt y.2 acc.2 then y else acc) a ∈ xs) ∧
    dateLt a.2 (xs.foldl (fun acc y => if dateLt y.2 acc.2 then y else acc) a).2
      = false ∧
    ∀ y ∈ xs,
      dateLt y.2 (xs.foldl (fun acc y => if dateLt y.2 acc.2 then y else acc) a).2
        = false := by
  induction xs generalizing a with
  | nil => simp [dateLt_irrefl]
  | cons x xs ih =>
    simp only [List.foldl_cons]
    by_cases h : dateLt x.2 a.2 = true
    · rw [if_pos h]
      obtain ⟨ihMem, ihSeed, ihAll⟩ := ih x
      refine ⟨?_, ?_, ?_⟩
      · rcases ihMem with h' | h'
        · right; rw [h']; exact List.mem_cons_self x xs
        · right; exact List.mem_cons_of_mem x h'
      · exact not_dateLt_trans (dateLt_asymm h) ihSeed
      · intro y hy
        rcases List.mem_cons.mp hy with rfl | hy'
        · exact ihSeed
        · exact ihAll y hy'
    · rw [if_neg h]
      obtain ⟨ihMem, ihSeed, ihAll⟩ := ih a
      have hx : dateLt x.2 a.2 = false := by
        cases hxa : dateLt x.2 a.2
        · rfl
        · exact absurd hxa h
      refine ⟨?_, ihSeed, ?_⟩
      · rcases ihMem with h' | h'
        · left; exact h'
        · right; exact List.mem_cons_of_mem x h'
      · intro y hy
        rcases List.mem_cons.mp hy with rfl | hy'
        · exact not_dateLt_trans hx ihSeed
        · exact ihAll y hy'

/-- Specification of `minByDate`: a returned item belongs to the list and its
date is minimal (the Python `min` with `key=lambda x: x[1]`). -/
lemma minByDate_spec {l : List (String × EntryDate)} {x : String × EntryDate}
    (h : minByDate l = some x) :
    x ∈ l ∧ ∀ y ∈ l, dateLt y.2 x.2 = false := by
  cases l with
  | nil => simp [minByDate] at h
  | cons a xs =>
    simp only [minByDate, Option.some.injEq] at h
    obtain ⟨hMem, hSeed, hAll⟩ := foldl_minBy_spec xs a
    subst h
    refine ⟨?_, ?_⟩
    · rcases hMem with h' | h'
      · rw [h']; exact List.mem_cons_self a xs
      · exact List.mem_cons_of_mem a h'
    · intro y hy
      rcases List.mem_cons.mp hy with rfl | hy'
      · exact hSeed
      · exact hAll y hy'

lemma minByDate_eq_none {l : List (String × EntryDate)} :
    minByDate l = none ↔ l = [] := by
  cases l <;> simp [minByDate]

lemma mem_file_dates {files : List String} {f : String} {d : EntryDate} :
    (f, d) ∈ file_dates files ↔ f ∈ files ∧ parseDate f = some d := by
  simp only [file_dates, List.mem_filterMap, Option.map_eq_some']
  constructor
  · rintro ⟨g, hg, dg, hdg, heq⟩
    obtain ⟨rfl, rfl⟩ := Prod.mk.injEq .. ▸ And.intro (congrArg Prod.fst heq)
      (congrArg Prod.snd heq)
    exact ⟨hg, hdg⟩
  · rintro ⟨hf, hd⟩
    exact ⟨f, hf, d, hd, rfl⟩

/-- `run_stages2to5` never touches the run counters. -/
lemma run_stages2to5_counters (env : RunEnv) (s1 : PipelineState)
    (st : ProcessingStats) :
    (run_stages2to5 env s1 st).2.total_runs = s1.total_runs ∧
    (run_stages2to5 env s1 st).2.successful_runs = s1.successful_runs := by
  unfold run_stages2to5
  repeat' split
  all_goals simp

/-- Counter behaviour of one non-exceptional run: either both counters are
left untouched (the download-failure early return) or `total_runs` is
incremented and `successful_runs` is incremented or left untouched. -/
lemma run_pipeline_counters (env : RunEnv) (s0 : PipelineState) :
    ((run_pipeline env s0).2.total_runs = s0.total_runs ∧
      (run_pipeline env s0).2.successful_runs = s0.successful_runs) ∨
    ((run_pipeline env s0).2.total_runs = some (s0.total_runs.getD 0 + 1) ∧
      ((run_pipeline env s0).2.successful_runs
          = some (s0.successful_runs.getD 0 + 1) ∨
        (run_pipeline env s0).2.successful_runs = s0.successful_runs)) := by
  unfold run_pipeline
  by_cases h : env.gdriveRet ≠ 0
  · left
    simp [h]
  · right
    simp only [h, if_true, if_false, if_neg h]
    obtain ⟨ht, hs⟩ := run_stages2to5_counters env
      { s0 with processing_stats := some (s0.processing_stats.getD initStats) }
      (s0.processing_stats.getD initStats)
    constructor
    · simp [ht]
    · by_cases hr : (run_stages2to5 env
        { s0 with processing_stats := some (s0.processing_stats.getD initStats) }
        (s0.processing_stats.getD initStats)).1
      · left; simp [hr, hs]
      · right; simp [hr, hs]

/-- One saved-state transition preserves `successful_runs ≤ total_runs`
(absent keys reading as 0). -/
lemma runStep_invariant {s s' : PipelineState} (h : RunStep s s')
    (inv : s.successful_runs.getD 0 ≤ s.total_runs.getD 0) :
    s'.successful_runs.getD 0 ≤ s'.total_runs.getD 0 := by
  cases h with
  | normal env s =>
    rcases run_pipeline_counters env s with ⟨ht, hs⟩ | ⟨ht, hs⟩
    · rw [ht, hs]; exact inv
    · rcases hs with hs | hs <;> rw [ht, hs] <;> simp <;> omega
  | exceptional now err tb s =>
    simp [run_pipeline_exception, emptyState]

/-! ## Claim C1 — download-stage failure (corrected) -/

/-- Claim C1, counterexample: the claim asserts `total_runs` is incremented
when the download stage fails, but the early return at `scheduler.py`
line 152 happens before the counter update at line 258, so `total_runs`
(here 5) is left unchanged rather than becoming 6. -/
theorem download_fail_total_runs_not_incremented :
    envC1.gdriveRet ≠ 0 ∧
    stateC1.total_runs = some 5 ∧
    (run_pipeline envC1 stateC1).2.total_runs = some 5 ∧
    (run_pipeline envC1 stateC1).2.total_runs
      ≠ some (stateC1.total_runs.getD 0 + 1) := by
  refine ⟨by decide, by decide, by decide, by decide⟩

/-- Claim C1 as amended: when the download stage fails, the run returns
`False` and the persisted state is exactly the loaded state with
`last_failed_step="gdrive_download"`, `last_error` set to the captured
stderr, `last_run_status="failed"` and `processing_stats` initialised —
in particular `total_runs` and `successful_runs` are both UNCHANGED (not
incremented), `last_run_time` is not updated, and no later stage leaves any
trace in the state. -/
theorem download_fail_state (env : RunEnv) (s0 : PipelineState)
    (h : env.gdriveRet ≠ 0) :
    run_pipeline env s0 =
      (false,
       { s0 with
           last_failed_step := some "gdrive_download"
           last_error := some env.gdriveStderr
           last_run_status := some "failed"
           processing_stats := some (s0.processing_stats.getD initStats) }) := by
  simp [run_pipeline, h]

/-- Witness for `download_fail_state` at a concrete environment and state. -/
theorem download_fail_state_witness :
    envC1.gdriveRet ≠ 0 ∧
    run_pipeline envC1 stateC1 =
      (false,
       { stateC1 with
           last_failed_step := some "gdrive_download"
           last_error := some envC1.gdriveStderr
           last_run_status := some "failed"
           processing_stats :=
             some (stateC1.processing_stats.getD initStats) }) :=
  ⟨by decide, download_fail_state envC1 stateC1 (by decide)⟩

/-! ## Claim C6 — transcript-artifact gate (corrected) -/

/-- Claim C6, counterexample: with all subprocesses succeeding and
`transcription.txt` present but EMPTY, the run is not marked failed and the
processing stage IS attempted (`total_processed` goes to 1) — `scheduler.py`
line 175 checks only `os.path.exists`, never the file's size. -/
theorem empty_transcript_proceeds :
    envC6.transcriptionFile = some "" ∧
    (run_pipeline envC6 emptyState).1 = true ∧
    (run_pipeline envC6 emptyState).2.last_run_status = some "success" ∧
    ((run_pipeline envC6 emptyState).2.processing_stats.getD
        initStats).total_processed = 1 := by
  refine ⟨by decide, by decide, by decide, by decide⟩

/-- Claim C6 as amended: after a successful transcription subprocess the
pipeline proceeds to the processing stage if and only if the transcript file
EXISTS; emptiness is not checked.  When the file is absent the run is marked
failed with `last_failed_step="transcription_file_missing"` and the
processing stage is not attempted (`total_processed` unchanged); when it is
present — even with empty content — the processing stage is attempted
(`total_processed` incremented). -/
theorem transcript_gate_amended (env : RunEnv) (s0 : PipelineState)
    (h0 : env.gdriveRet = 0) (h1 : env.whisperRet = 0) :
    (env.transcriptionFile = none →
      (run_pipeline env s0).1 = false ∧
      (run_pipeline env s0).2.last_run_status = some "failed" ∧
      (run_pipeline env s0).2.last_failed_step
        = some "transcription_file_missing" ∧
      ((run_pipeline env s0).2.processing_stats.getD initStats).total_processed
        = (s0.processing_stats.getD initStats).total_processed) ∧
    (∀ c : String, env.transcriptionFile = some c →
      ((run_pipeline env s0).2.processing_stats.getD initStats).total_processed
        = (s0.processing_stats.getD initStats).total_processed + 1) := by
  constructor
  · intro hn
    simp [run_pipeline, run_stages2to5, h0, h1, hn]
  · intro c hc
    simp only [run_pipeline, run_stages2to5, h0, h1, hc]
    simp only [ne_eq, not_true_eq_false, if_false, reduceIte,
      Option.isNone_some, Bool.false_eq_true]
    repeat' split
    all_goals simp

/-- Witness for `transcript_gate_amended`: the empty-content environment. -/
theorem transcript_gate_amended_witness :
    envC6.gdriveRet = 0 ∧ envC6.whisperRet = 0 ∧
    envC6.transcriptionFile = some "" ∧
    ((run_pipeline envC6 emptyState).2.processing_stats.getD
        initStats).total_processed
      = (emptyState.processing_stats.getD initStats).total_processed + 1 :=
  ⟨by decide, by decide, by decide,
    (transcript_gate_amended envC6 emptyState (by decide) (by decide)).2
      "" (by decide)⟩

/-! ## Claim C9 — email failure vs persisted status (confirmed) -/

/-- Claim C9: when stages 1-4 succeed, an output file is reported and the
email send fails, `run_pipeline` returns `False` and `successful_runs` is
not incremented, yet the persisted `last_run_status` stays `"success"` and
`last_failed_step` is untouched (`scheduler.py` lines 244-249 only clear the
`success` flag) — the persisted status and the success counter disagree. -/
theorem email_failure_status_mismatch (env : RunEnv) (s0 : PipelineState)
    (r : OngoingResult) (p : String)
    (h1 : env.gdriveRet = 0) (h2 : env.whisperRet = 0)
    (h3 : env.transcriptionFile.isSome) (h4 : env.processRet = 0)
    (h5 : env.ongoingRet = 0) (h6 : env.ongoingJson = some r)
    (h7 : r.status = "success") (h8 : r.output_file = some p) (h9 : p ≠ "")
    (h10 : env.emailSuccess = false) :
    (run_pipeline env s0).1 = false ∧
    (run_pipeline env s0).2.last_run_status = some "success" ∧
    (run_pipeline env s0).2.last_failed_step = s0.last_failed_step ∧
    (run_pipeline env s0).2.total_runs = some (s0.total_runs.getD 0 + 1) ∧
    (run_pipeline env s0).2.successful_runs = s0.successful_runs := by
  obtain ⟨c, hc⟩ := Option.isSome_iff_exists.mp h3
  simp [run_pipeline, run_stages2to5, h1, h2, hc, h4, h5, h6, h7, h8, h9, h10]

/-- Witness for `email_failure_status_mismatch` at a concrete environment. -/
theorem email_failure_status_mismatch_witness :
    (envC9.gdriveRet = 0 ∧ envC9.whisperRet = 0 ∧
      envC9.transcriptionFile.isSome ∧ envC9.processRet = 0 ∧
      envC9.ongoingRet = 0 ∧
      envC9.ongoingJson = some ⟨"success", "ok", some "out.txt"⟩ ∧
      envC9.emailSuccess = false) ∧
    (run_pipeline envC9 emptyState).1 = false ∧
    (run_pipeline envC9 emptyState).2.last_run_status = some "success" ∧
    (run_pipeline envC9 emptyState).2.last_failed_step
      = emptyState.last_failed_step ∧
    (run_pipeline envC9 emptyState).2.total_runs
      = some (emptyState.total_runs.getD 0 + 1) ∧
    (run_pipeline envC9 emptyState).2.successful_runs
      = emptyState.successful_runs :=
  ⟨⟨by decide, by decide, by decide, by decide, by decide, by decide,
     by decide⟩,
   email_failure_status_mismatch envC9 emptyState
     ⟨"success", "ok", some "out.txt"⟩ "out.txt" (by decide) (by decide)
     (by decide) (by decide) (by decide) (by decide) (by decide) (by decide)
     (by decide) (by decide)⟩

/-! ## Claim C4 — counter invariants (corrected) -/

/-- Claim C4, counterexample: the counters are NOT monotonically
non-decreasing across every run.  After one successful run the saved state
has `total_runs = successful_runs = 1`; a following run that ends in the
top-level exception handler (`scheduler.py` lines 269-279) replaces the
whole state with a fresh record, dropping both counters, so the next saved
state reads 0 — a strict decrease. -/
theorem exception_run_resets_counters :
    Reachable happyState1 ∧
    RunStep happyState1 exceptionState ∧
    happyState1.total_runs = some 1 ∧
    happyState1.successful_runs = some 1 ∧
    exceptionState.total_runs = none ∧
    exceptionState.successful_runs = none ∧
    exceptionState.total_runs.getD 0 < happyState1.total_runs.getD 0 ∧
    exceptionState.successful_runs.getD 0
      < happyState1.successful_runs.getD 0 :=
  ⟨Relation.ReflTransGen.single (RunStep.normal happyEnv emptyState),
   RunStep.exceptional "2025-01-02T00:00:00" "boom" "Traceback" happyState1,
   by decide, by decide, by decide, by decide, by decide, by decide⟩

/-- Claim C4 as amended: every saved state reachable from the initial
(absent-file) state satisfies `successful_runs ≤ total_runs` (absent keys
reading as 0), and across every NON-exceptional run the two counters are
monotonically non-decreasing; a run ending in the top-level exception
handler instead resets the persisted state, dropping both counters. -/
theorem counters_invariant_amended :
    (∀ s : PipelineState, Reachable s →
      s.successful_runs.getD 0 ≤ s.total_runs.getD 0) ∧
    (∀ (env : RunEnv) (s : PipelineState),
      s.total_runs.getD 0 ≤ (run_pipeline env s).2.total_runs.getD 0 ∧
      s.successful_runs.getD 0
        ≤ (run_pipeline env s).2.successful_runs.getD 0) := by
  constructor
  · intro s h
    induction h with
    | refl => simp [emptyState]
    | tail hab hbc ih => exact runStep_invariant hbc ih
  · intro env s
    rcases run_pipeline_counters env s with ⟨ht, hs⟩ | ⟨ht, hs⟩
    · rw [ht, hs]; exact ⟨le_refl _, le_refl _⟩
    · rcases hs with hs | hs <;> rw [ht, hs] <;> constructor <;> simp

/-- Witness for `counters_invariant_amended`: the invariant at the reachable
state after one successful run, and counter monotonicity across a concrete
run. -/
theorem counters_invariant_amended_witness :
    happyState1.successful_runs.getD 0 ≤ happyState1.total_runs.getD 0 ∧
    (emptyState.total_runs.getD 0
        ≤ (run_pipeline happyEnv emptyState).2.total_runs.getD 0 ∧
      emptyState.successful_runs.getD 0
        ≤ (run_pipeline happyEnv emptyState).2.successful_runs.getD 0) :=
  ⟨counters_invariant_amended.1 happyState1
     (Relation.ReflTransGen.single (RunStep.normal happyEnv emptyState)),
   counters_invariant_amended.2 happyEnv emptyState⟩

/-! ## Claim C2 — summarization failure flips the run (code_bug) -/

/-- Claim C2 is violated by the code: when stages 1-3 succeed and the
summarizer fails, `process_ongoing_entries.py` exits with code 2
(lines 229-237), and the scheduler's non-zero-returncode branch
(`scheduler.py` lines 215-220) then sets `last_run_status="failed"` and
`last_failed_step="ongoing_entries_processing"` — the run IS flipped to
failed.  The scheduler's own soft-handling branch for a non-`success`
status (lines 226-227, a warning only) is unreachable, because the chain
script never prints a non-`success` status with exit code 0. -/
theorem summarize_failure_flips_run_failed :
    run_check_ongoing_entries files2
      = some "2024-01-01_ongoing_entries.txt" ∧
    (process_ongoing_main files2 summFail).1 = 2 ∧
    (process_ongoing_main files2 summFail).2.status = "error" ∧
    (run_pipeline (envWithOngoing happyEnv files2 summFail) emptyState).1
      = false ∧
    (run_pipeline (envWithOngoing happyEnv files2 summFail)
        emptyState).2.last_run_status = some "failed" ∧
    (run_pipeline (envWithOngoing happyEnv files2 summFail)
        emptyState).2.last_failed_step
      = some "ongoing_entries_processing" := by
  refine ⟨by decide, by decide, by decide, by decide, by decide, by decide⟩

/-! ## Claim C3 — empty selection marks the run failed (code_bug) -/

/-- Claim C3 is violated by the code: with stages 1-3 succeeding and the
oldest-entry finder seeing 0 (or 1) candidate files, the chain script does
print the distinct `no_file` status but exits with code 1 (lines 215-223),
and the scheduler's non-zero-returncode branch then marks the run failed and
returns `False` — the `nothing to do yet` outcome IS treated as a failure.
The scheduler's `no_file` handling branch (`scheduler.py` lines 224-225) is
unreachable because it only runs when the exit code is 0. -/
theorem selection_empty_marks_run_failed :
    find_oldest_ongoing_entries_file ([] : List String) = .no_files ∧
    find_oldest_ongoing_entries_file ["2024-01-05_ongoing_entries.txt"]
      = .single_file ∧
    (process_ongoing_main [] summOk).1 = 1 ∧
    (process_ongoing_main [] summOk).2.status = "no_file" ∧
    (process_ongoing_main ["2024-01-05_ongoing_entries.txt"] summOk).1 = 1 ∧
    (run_pipeline (envWithOngoing happyEnv [] summOk) emptyState).1 = false ∧
    (run_pipeline (envWithOngoing happyEnv [] summOk)
        emptyState).2.last_run_status = some "failed" ∧
    (run_pipeline (envWithOngoing happyEnv [] summOk)
        emptyState).2.last_failed_step
      = some "ongoing_entries_processing" := by
  refine ⟨by decide, by decide, by decide, by decide, by decide, by decide,
    by decide, by decide⟩

/-! ## Claim C5 — runs_per_day validation never runs (code_bug) -/

/-- Claim C5 is violated by the code: `validate_config` (which would reject
an absent `runs_per_day`) is defined at `scheduler.py` lines 54-68 but never
called by `main`; with the key absent, `calculate_interval_seconds` silently
defaults it to 1 (`config.get(...).get("runs_per_day", 1)`, line 77) and
`main` enters the run loop with an 86400-second interval — the pipeline IS
executed with a defaulted `runs_per_day`. -/
theorem absent_runs_per_day_defaults_and_runs :
    validate_config cfgC5
      = .error "Missing required parameter in scheduler section: runs_per_day" ∧
    calculate_interval_seconds cfgC5 = .ok 86400 ∧
    main_flow (some cfgC5) = .runLoop 86400 := by
  refine ⟨rfl, ?_, ?_⟩
  · simp [calculate_interval_seconds, cfgC5, pyInt]
  · simp [main_flow, cfgC5, calculate_interval_seconds, pyInt]

/-! ## Claim C7 — interval computation (confirmed) -/

/-- Claim C7: for every numeric `runs_per_day > 0`,
`calculate_interval_seconds` returns `floor(86400 / runs_per_day)` (Python's
`int()` truncates toward zero, which is `floor` on the non-negative
quotient), and for `runs_per_day == 0` it returns exactly 0.  The Python
float division is modelled as exact rational division. -/
theorem calculate_interval_spec (q : ℚ) :
    (0 < q →
      calculate_interval_seconds (numConfig q) = .ok ⌊(86400 : ℚ) / q⌋) ∧
    calculate_interval_seconds (numConfig 0) = .ok 0 := by
  constructor
  · intro hq
    have hne : q ≠ 0 := ne_of_gt hq
    have hnn : (0 : ℚ) ≤ 86400 / q := div_nonneg (by norm_num) (le_of_lt hq)
    simp [calculate_interval_seconds, numConfig, pyInt, hne, hnn]
  · simp [calculate_interval_seconds, numConfig]

/-- Witness for `calculate_interval_spec` at `runs_per_day = 7`. -/
theorem calculate_interval_spec_witness :
    0 < (7 : ℚ) ∧
    calculate_interval_seconds (numConfig 7) = .ok ⌊(86400 : ℚ) / 7⌋ :=
  ⟨by decide, (calculate_interval_spec 7).1 (by decide)⟩

/-! ## Claim C8 — oldest-entry finder (confirmed) -/

/-- Claim C8: on 0 glob matches the finder reports `no_files`; on exactly 1
it reports `single_file`; on 2 or more it parses the embedded date of each
filename, skips files whose date does not parse (total function — no crash),
and selects a file with the minimal parsed date whenever at least one file
parses (reporting `no_valid_files` when none does). -/
theorem find_oldest_spec (files : List String) :
    (files = [] → find_oldest_ongoing_entries_file files = .no_files) ∧
    (files.length = 1 →
      find_oldest_ongoing_entries_file files = .single_file) ∧
    (2 ≤ files.length →
      (∀ f d, f ∈ files → parseDate f = some d →
        ∃ p dp, find_oldest_ongoing_entries_file files = .success p ∧
          p ∈ files ∧ parseDate p = some dp ∧
          ∀ g dg, g ∈ files → parseDate g = some dg →
            dateLt dg dp = false) ∧
      ((∀ f ∈ files, parseDate f = none) →
        find_oldest_ongoing_entries_file files = .no_valid_files)) := by
  refine ⟨?_, ?_, ?_⟩
  · rintro rfl; rfl
  · intro h1
    have hne : files.isEmpty = false := by
      cases files with
      | nil => simp at h1
      | cons a l => rfl
    simp [find_oldest_ongoing_entries_file, hne, h1]
  · intro h2
    have hne : files.isEmpty = false := by
      cases files with
      | nil => simp at h2
      | cons a l => rfl
    have hlen : files.length ≠ 1 := by omega
    constructor
    · intro f d hf hd
      have hmem : (f, d) ∈ file_dates files := mem_file_dates.mpr ⟨hf, hd⟩
      have hnil : file_dates files ≠ [] := by
        intro h
        rw [h] at hmem
        exact absurd hmem (List.not_mem_nil _)
      cases hmin : minByDate (file_dates files) with
      | none => exact absurd (minByDate_eq_none.mp hmin) hnil
      | some x =>
        obtain ⟨hxMem, hxMin⟩ := minByDate_spec hmin
        have hx : x.1 ∈ files ∧ parseDate x.1 = some x.2 :=
          mem_file_dates.mp (by simpa using hxMem)
        refine ⟨x.1, x.2, ?_, hx.1, hx.2, ?_⟩
        · simp [find_oldest_ongoing_entries_file, hne, hlen, hmin]
        · intro g dg hg hdg
          exact hxMin (g, dg) (mem_file_dates.mpr ⟨hg, hdg⟩)
    · intro hall
      have hnil : file_dates files = [] := by
        simp only [file_dates, List.filterMap_eq_nil_iff]
        intro f hf
        simp [hall f hf]
      simp [find_oldest_ongoing_entries_file, hne, hlen, hnil, minByDate]

/-- Witness for `find_oldest_spec` at the spec's Scenario A file set. -/
theorem find_oldest_spec_witness :
    2 ≤ filesA.length ∧
    (∃ p dp, find_oldest_ongoing_entries_file filesA = .success p ∧
      p ∈ filesA ∧ parseDate p = some dp ∧
      ∀ g dg, g ∈ filesA → parseDate g = some dg → dateLt dg dp = false) :=
  ⟨by decide,
   (find_oldest_spec filesA).2.2 (by decide) |>.1
     "2024-01-01_ongoing_entries.txt" ⟨2024, 1, 1⟩ (by decide) (by decide)⟩

/-! ## Claim C10 — the population guard counts raw glob matches (confirmed) -/

/-- Claim C10: the minimum-population guard of
`find_oldest_ongoing_entries_file` counts raw glob matches (line 121:
`len(ongoing_entries_files) == 1`), not date-parseable files: whenever at
least two files match the glob but exactly one has a parseable date, the
finder returns that single dated file with status `success` — even though it
may be the only (today's) accumulator file. -/
theorem population_guard_counts_raw_matches (files : List String)
    (f : String) (d : EntryDate) (h2 : 2 ≤ files.length) (hf : f ∈ files)
    (hp : parseDate f = some d)
    (ho : ∀ g ∈ files, g ≠ f → parseDate g = none) :
    find_oldest_ongoing_entries_file files = .success f ∧
    findStatus (find_oldest_ongoing_entries_file files) = "success" := by
  have hne : files.isEmpty = false := by
    cases files with
    | nil => simp at h2
    | cons a l => rfl
  have hlen : files.length ≠ 1 := by omega
  have hmem : (f, d) ∈ file_dates files := mem_file_dates.mpr ⟨hf, hp⟩
  have honly : ∀ x ∈ file_dates files, x = (f, d) := by
    intro x hx
    have hx' : x.1 ∈ files ∧ parseDate x.1 = some x.2 :=
      mem_file_dates.mp (by simpa using hx)
    by_cases hxf : x.1 = f
    · have : parseDate f = some x.2 := hxf ▸ hx'.2
      have hd : x.2 = d := by
        rw [hp] at this
        exact (Option.some.injEq .. ▸ this).symm
      calc x = (x.1, x.2) := rfl
        _ = (f, d) := by rw [hxf, hd]
    · exact absurd hx'.2 (by simp [ho x.1 hx'.1 hxf])
  have hnil : file_dates files ≠ [] := by
    intro h
    rw [h] at hmem
    exact absurd hmem (List.not_mem_nil _)
  cases hmin : minByDate (file_dates files) with
  | none => exact absurd (minByDate_eq_none.mp hmin) hnil
  | some x =>
    obtain ⟨hxMem, -⟩ := minByDate_spec hmin
    have hxfd : x = (f, d) := honly x hxMem
    constructor
    · simp [find_oldest_ongoing_entries_file, hne, hlen, hmin, hxfd]
    · simp [find_oldest_ongoing_entries_file, hne, hlen, hmin, hxfd,
        findStatus]

/-- Witness for `population_guard_counts_raw_matches`: two glob matches, one
dated file plus one undated file, and the dated file is selected with
status `success`. -/
theorem population_guard_witness :
    (2 ≤ filesOneDated.length ∧
      parseDate "2025-04-01_ongoing_entries.txt"
        = some ⟨2025, 4, 1⟩ ∧
      parseDate "garbage_ongoing_entries.txt" = none) ∧
    find_oldest_ongoing_entries_file filesOneDated
      = .success "2025-04-01_ongoing_entries.txt" ∧
    findStatus (find_oldest_ongoing_entries_file filesOneDated)
      = "success" :=
  ⟨⟨by decide, by decide, by decide⟩,
   population_guard_counts_raw_matches filesOneDated
     "2025-04-01_ongoing_entries.txt" ⟨2025, 4, 1⟩ (by decide) (by decide)
     (by decide) (by decide)⟩

end VoiceDiary
